import Mathlib

/-!
# tp-micro gateway: server wrapper, gateway orchestrator, websocket handshake

A shallow embedding of `server.go`, `gateway/gateway.go` and
`gateway/logic/websocket/server.go`.

Conventions of the embedding
* A Go `string` is a Lean `String`; the byte-level standard-library routines
  (`net.SplitHostPort`, `strconv.Atoi`) work on its character list.  The only
  bytes they inspect are ASCII, so on valid UTF-8 the character-level reading
  and the byte-level reading cut the text at the same places.
* A Go `error` / `*Status` that may be `nil` is an `Option`.
* `erpc.Fatalf` logs and exits the process; code that may reach it returns
  `Exec`, whose `fatal` constructor is the aborted run.
* Calls into the RPC engine are recorded as events, in program order.
-/

namespace Micro

/-! ## Engine types used by the wrapper -/

/-- The engine's handling status: a code, a message and a cause. -/
structure Status where
  code : Int
  msg : String
  cause : String
deriving DecidableEq, Repr

/-- Method `(*Status).OK`: a nil status, or one whose code is zero, is OK. -/
def Status.OK : Option Status → Bool
  | none => true
  | some s => s.code == 0

/-- Method `(*Status).SetCause` on a non-nil status: the same status with the cause replaced. -/
def Status.SetCause (s : Status) (cause : String) : Status :=
  { s with cause := cause }

/-- A run that either returns a value or ends in `erpc.Fatalf` (process exit). -/
inductive Exec (α : Type) where
  | ret : α → Exec α
  | fatal : String → Exec α
deriving DecidableEq, Repr

/-- Whether the run returned to its caller. -/
def Exec.returns {α : Type} : Exec α → Bool
  | .ret _ => true
  | .fatal _ => false

/-! ## `SrvConfig` -/

/-- The server configuration (`time.Duration` is a count of nanoseconds). -/
structure SrvConfig where
  Network : String
  ListenAddress : String
  TlsCertFile : String
  TlsKeyFile : String
  DefaultSessionAge : Int
  DefaultContextAge : Int
  SlowCometDuration : Int
  DefaultBodyCodec : String
  PrintDetail : Bool
  CountTime : Bool
  EnableHeartbeat : Bool
deriving DecidableEq, Repr

/-- The zero value `SrvConfig{}`. -/
def zeroSrvConfig : SrvConfig :=
  { Network := "", ListenAddress := "", TlsCertFile := "", TlsKeyFile := "",
    DefaultSessionAge := 0, DefaultContextAge := 0, SlowCometDuration := 0,
    DefaultBodyCodec := "", PrintDetail := false, CountTime := false,
    EnableHeartbeat := false }

/-- The two `if len(..) == 0` assignments of `Reload`, after `bind` has run. -/
def SrvConfig.applyDefaults (s : SrvConfig) : SrvConfig :=
  let s := if s.Network.length = 0 then { s with Network := "tcp" } else s
  let s := if s.ListenAddress.length = 0 then { s with ListenAddress := "0.0.0.0:9090" } else s
  s

/-- Method `SrvConfig.Reload`: `bind` (which may rewrite the receiver and may fail) runs
first, then the defaults are filled in, then `bind`'s error is returned. -/
def SrvConfig.Reload (s : SrvConfig) (bind : SrvConfig → SrvConfig × Option String) :
    SrvConfig × Option String :=
  let r := bind s
  let err := r.2
  (r.1.applyDefaults, err)

/-! ## `net.SplitHostPort` and `strconv.Atoi` -/

/-- Go `bytealg.IndexByteString`: the first position of `c`, `none` for `-1`. -/
def indexByte : List Char → Char → Option Nat
  | [], _ => none
  | x :: xs, c => if x = c then some 0 else (indexByte xs c).map (· + 1)

/-- Go `bytealg.LastIndexByteString`: the last position of `c`, `none` for `-1`. -/
def lastIndexByte : List Char → Char → Option Nat
  | [], _ => none
  | x :: xs, c =>
    match lastIndexByte xs c with
    | some i => some (i + 1)
    | none => if x = c then some 0 else none

/-- Go `net.SplitHostPort` on the character list; the error is the `AddrError` reason. -/
def splitHostPortChars (hostport : List Char) : Except String (List Char × List Char) :=
  match lastIndexByte hostport ':' with
  | none => .error "missing port in address"
  | some i =>
    if hostport.head? = some '[' then
      match indexByte hostport ']' with
      | none => .error "missing ']' in address"
      | some e =>
        if e + 1 = hostport.length then .error "missing port in address"
        else if e + 1 = i then
          let host := (hostport.take e).drop 1
          if (indexByte (hostport.drop 1) '[').isSome then .error "unexpected '[' in address"
          else if (indexByte (hostport.drop (e + 1)) ']').isSome then
            .error "unexpected ']' in address"
          else .ok (host, hostport.drop (i + 1))
        else if (hostport.drop (e + 1)).head? = some ':' then
          .error "too many colons in address"
        else .error "missing port in address"
    else
      let host := hostport.take i
      if (indexByte host ':').isSome then .error "too many colons in address"
      else if (indexByte hostport '[').isSome then .error "unexpected '[' in address"
      else if (indexByte hostport ']').isSome then .error "unexpected ']' in address"
      else .ok (host, hostport.drop (i + 1))

/-- Go `net.SplitHostPort`. -/
def SplitHostPort (hostport : String) : Except String (String × String) :=
  match splitHostPortChars hostport.data with
  | .ok (h, p) => .ok (String.mk h, String.mk p)
  | .error e => .error e

/-- The size of Go's `int` in bits. -/
def intSize : Nat := 64

/-- The value of an ASCII digit, `none` for any other character (`ch -= '0'; ch > 9`). -/
def digitVal (c : Char) : Option Nat :=
  if '0' ≤ c ∧ c ≤ '9' then some (c.toNat - '0'.toNat) else none

/-- The fast-path loop of `Atoi`: `n = n*10 + int(ch)`, a syntax error at the first non-digit. -/
def atoiFast : List Char → Nat → Option Nat
  | [], n => some n
  | c :: cs, n =>
    match digitVal c with
    | none => none
    | some d => atoiFast cs (n * 10 + d)

/-- Result of `strconv.ParseUint`: a value, a syntax error, or a range error
(which carries the maximal value). -/
inductive UintResult where
  | ok : Nat → UintResult
  | syntaxErr : UintResult
  | rangeErr : Nat → UintResult
deriving DecidableEq, Repr

/-- The digit loop of `strconv.ParseUint(s, 10, 64)`; letters are digits `≥ 10` and so
are syntax errors in base 10, like every other non-digit. -/
def parseUintLoop (cutoff maxVal : Nat) : List Char → Nat → UintResult
  | [], n => .ok n
  | c :: cs, n =>
    match digitVal c with
    | none => .syntaxErr
    | some d =>
      if n ≥ cutoff then .rangeErr maxVal
      else
        let n1 := n * 10 + d
        if n1 > maxVal then .rangeErr maxVal
        else parseUintLoop cutoff maxVal cs n1

/-- Go `strconv.ParseUint(s, 10, 0)` on a 64-bit platform. -/
def parseUint (s : List Char) : UintResult :=
  if s = [] then .syntaxErr
  else parseUintLoop ((2 ^ 64 - 1) / 10 + 1) (2 ^ intSize - 1) s 0

/-- Go `strconv.ParseInt(s, 10, 0)`: the value and whether an error was returned. -/
def parseInt (s : List Char) : Int × Bool :=
  match s with
  | [] => (0, true)
  | c :: cs =>
    let neg := c = '-'
    let body := if c = '+' ∨ c = '-' then cs else s
    match parseUint body with
    | .syntaxErr => (0, true)
    | r =>
      let un := match r with
        | .ok n => n
        | .rangeErr m => m
        | .syntaxErr => 0
      let cutoff := 2 ^ (intSize - 1)
      if ¬ neg ∧ un ≥ cutoff then (((cutoff : Nat) : Int) - 1, true)
      else if neg ∧ un > cutoff then (- ((cutoff : Nat) : Int), true)
      else (if neg then - (un : Int) else (un : Int), false)

/-- Go `strconv.Atoi`: the value and whether an error was returned. -/
def atoiChars (s : List Char) : Int × Bool :=
  if 0 < s.length ∧ s.length < 19 then
    match s with
    | [] => (0, true)
    | c :: cs =>
      let body := if c = '-' ∨ c = '+' then cs else s
      if body.length < 1 then (0, true)
      else
        match atoiFast body 0 with
        | none => (0, true)
        | some n => (if c = '-' then - (n : Int) else (n : Int), false)
  else parseInt s

/-- Go `strconv.Atoi`. -/
def Atoi (s : String) : Int × Bool := atoiChars s.data

/-- The number a text denotes when it is a decimal number, that is a non-empty run of
ASCII digits, and `none` when it is not. -/
def decimalValue (s : String) : Option Nat :=
  if s.data ≠ [] ∧ s.data.all Char.isDigit = true then
    some (s.data.foldl (fun n c => n * 10 + (c.toNat - '0'.toNat)) 0)
  else none

/-- The conversion `uint16(n)` of a Go `int`. -/
def toUint16 (n : Int) : Nat := (n % 65536).toNat

/-! ## `SrvConfig.PeerConfig` -/

/-- The engine's peer configuration, the fields that `SrvConfig.PeerConfig` sets. -/
structure PeerConfig where
  DefaultSessionAge : Int
  DefaultContextAge : Int
  SlowCometDuration : Int
  DefaultBodyCodec : String
  PrintDetail : Bool
  CountTime : Bool
  Network : String
  LocalIP : String
  ListenPort : Nat
deriving DecidableEq, Repr

/-- Method `SrvConfig.ListenPort`: the port text, fatal when the address does not split. -/
def SrvConfig.ListenPort (s : SrvConfig) : Exec String :=
  match SplitHostPort s.ListenAddress with
  | .error e => .fatal e
  | .ok (_, port) => .ret port

/-- Method `SrvConfig.PeerConfig`: fatal when the address does not split; the error of
`Atoi` is discarded and its value converted to `uint16`. -/
def SrvConfig.PeerConfig (s : SrvConfig) : Exec PeerConfig :=
  match SplitHostPort s.ListenAddress with
  | .error e => .fatal e
  | .ok (host, port) =>
    let listenPort := (Atoi port).1
    .ret {
      DefaultSessionAge := s.DefaultSessionAge
      DefaultContextAge := s.DefaultContextAge
      SlowCometDuration := s.SlowCometDuration
      DefaultBodyCodec := s.DefaultBodyCodec
      PrintDetail := s.PrintDetail
      CountTime := s.CountTime
      Network := s.Network
      LocalIP := host
      ListenPort := toUint16 listenPort }

/-! ## `Server` and `NewServer` -/

/-- A plugin in the engine's container: one supplied by the caller, the heartbeat
pong (`heartbeat.NewPong()`), or the struct-args binder. -/
inductive Plugin (P : Type) where
  | caller : P → Plugin P
  | heartbeatPong : Plugin P
  | structArgsBinder : Plugin P
deriving DecidableEq, Repr

/-- Type `binder.ErrorFunc`: handler name, parameter name and reason to a status. -/
abbrev ErrorFunc := String → String → String → Option Status

/-- The struct-args binder, as far as the wrapper touches it: its error function. -/
structure StructArgsBinder where
  errFunc : Option ErrorFunc

/-- Method `(*StructArgsBinder).SetErrorFunc` with a non-nil function. -/
def StructArgsBinder.SetErrorFunc (_b : StructArgsBinder) (fn : ErrorFunc) : StructArgsBinder :=
  { errFunc := some fn }

/-- Modelled from the spec: the engine's plugin container, which is not part of this
repository's sources; plugins are kept in two ordered groups, left of and right of the
built-in pipeline, and run in insertion order within each group. -/
structure PluginContainer (P : Type) where
  left : List (Plugin P)
  right : List (Plugin P)
deriving DecidableEq, Repr

/-- The container's plugins in execution order. -/
def PluginContainer.pipeline {P : Type} (c : PluginContainer P) : List (Plugin P) :=
  c.left ++ c.right

/-- Modelled from the spec: the engine's `(*PluginContainer).AppendRight`, which is not
part of this repository's sources.  `exits c p` is the engine's own refusal of the plugin
(a nil plugin, a name already in the container), which ends the process through
`Fatalf`; otherwise the plugin goes to the end of the right group. -/
def PluginContainer.AppendRight {P : Type}
    (exits : PluginContainer P → Plugin P → Option String)
    (c : PluginContainer P) (p : Plugin P) : Exec (PluginContainer P) :=
  match exits c p with
  | some e => .fatal e
  | none => .ret { c with right := c.right ++ [p] }

/-- The engine peer, as far as the wrapper touches it. -/
structure Peer (P : Type) where
  cfg : PeerConfig
  pluginContainer : PluginContainer P
  tls : Option (String × String)
deriving DecidableEq, Repr

/-- Modelled from the spec: the engine's constructor `erpc.NewPeer(cfg,
globalLeftPlugin...)`, which is not part of this repository's sources.  `exits cfg
plugins` is the engine's own refusal (an invalid peer configuration such as an unknown
network, a repeated plugin name), which ends the process through `Fatalf`; otherwise the
peer holds the configuration and the plugins as its left group, in the order given. -/
def NewPeer {P : Type} (exits : PeerConfig → List (Plugin P) → Option String)
    (cfg : PeerConfig) (globalLeftPlugin : List (Plugin P)) : Exec (Peer P) :=
  match exits cfg globalLeftPlugin with
  | some e => .fatal e
  | none =>
    .ret { cfg := cfg, pluginContainer := { left := globalLeftPlugin, right := [] }, tls := none }

/-- The server peer. -/
structure Server (P : Type) where
  peer : Peer P
  binder : StructArgsBinder

/-- The default binding-error function installed by `SetBindErrorFunc(nil)`.
`quote` is the `%q` verb of `fmt.Sprintf` (`strconv.Quote`). -/
def defaultBindErrorFunc (RerrInvalidParameter : Status) (quote : String → String) : ErrorFunc :=
  fun handlerName paramName reason =>
    some (RerrInvalidParameter.SetCause
      ("\x7b\"handler\": " ++ quote handlerName ++ ", \"param\": " ++ quote paramName ++
        ", \"reason\": " ++ quote reason ++ "\x7d"))

/-- Method `(*Server).SetBindErrorFunc`: a non-nil `fn` is installed as it is, `nil` installs
the default. -/
def Server.SetBindErrorFunc {P : Type} (RerrInvalidParameter : Status) (quote : String → String)
    (s : Server P) (fn : Option ErrorFunc) : Server P :=
  match fn with
  | some f => { s with binder := s.binder.SetErrorFunc f }
  | none =>
    { s with binder := s.binder.SetErrorFunc (defaultBindErrorFunc RerrInvalidParameter quote) }

/-- The calls `NewServer` makes, in program order. -/
inductive SrvEvent (P : Type) where
  | doInit : SrvEvent P
  | newPeer : PeerConfig → List (Plugin P) → SrvEvent P
  | appendRight : Plugin P → SrvEvent P
  | setTLSConfigFromFile : String → String → SrvEvent P
  | fatalf : String → SrvEvent P
deriving DecidableEq, Repr

/-- Function `NewServer`.  `newPeerExits` and `appendRightExits` are the engine's refusals
in `erpc.NewPeer` and `AppendRight`, `loadTLS cert key` is the result of
`peer.SetTLSConfigFromFile`; `none` is "did not exit" and a nil error.  The result is the
list of calls made and either the server or the fatal exit. -/
def NewServer {P : Type} (RerrInvalidParameter : Status) (quote : String → String)
    (newPeerExits : PeerConfig → List (Plugin P) → Option String)
    (appendRightExits : PluginContainer P → Plugin P → Option String)
    (loadTLS : String → String → Option String)
    (cfg : SrvConfig) (globalLeftPlugin : List (Plugin P)) :
    List (SrvEvent P) × Exec (Server P) :=
  let globalLeftPlugin :=
    if cfg.EnableHeartbeat then globalLeftPlugin ++ [Plugin.heartbeatPong] else globalLeftPlugin
  match cfg.PeerConfig with
  | .fatal e => ([.doInit, .fatalf e], .fatal e)
  | .ret pc =>
    match NewPeer newPeerExits pc globalLeftPlugin with
    | .fatal e => ([.doInit, .newPeer pc globalLeftPlugin, .fatalf e], .fatal e)
    | .ret peer =>
      let binder : StructArgsBinder := { errFunc := none }
      match peer.pluginContainer.AppendRight appendRightExits .structArgsBinder with
      | .fatal e =>
        ([.doInit, .newPeer pc globalLeftPlugin, .appendRight .structArgsBinder, .fatalf e],
          .fatal e)
      | .ret container =>
        let peer := { peer with pluginContainer := container }
        let pre : List (SrvEvent P) :=
          [.doInit, .newPeer pc globalLeftPlugin, .appendRight .structArgsBinder]
        if cfg.TlsCertFile.length > 0 ∧ cfg.TlsKeyFile.length > 0 then
          match loadTLS cfg.TlsCertFile cfg.TlsKeyFile with
          | some e =>
            (pre ++ [.setTLSConfigFromFile cfg.TlsCertFile cfg.TlsKeyFile, .fatalf e], .fatal e)
          | none =>
            let peer := { peer with tls := some (cfg.TlsCertFile, cfg.TlsKeyFile) }
            let s : Server P := { peer := peer, binder := binder }
            (pre ++ [.setTLSConfigFromFile cfg.TlsCertFile cfg.TlsKeyFile],
              .ret (s.SetBindErrorFunc RerrInvalidParameter quote none))
        else
          let s : Server P := { peer := peer, binder := binder }
          (pre, .ret (s.SetBindErrorFunc RerrInvalidParameter quote none))

/-- A sample of the engine's configuration check: the networks named in the
`SrvConfig.Network` comment are accepted, any other makes `erpc.NewPeer` exit. -/
def sampleNewPeerExits {P : Type} (cfg : PeerConfig) (_plugins : List (Plugin P)) :
    Option String :=
  if cfg.Network ∈ ["tcp", "tcp4", "tcp6", "unix", "unixpacket"] then none
  else some "Invalid network config"

end Micro

/-! ## `gateway.Run` -/

namespace Gateway

/-- The gateway configuration, the fields that `Run` reads.  The sub-configurations are
left abstract. -/
structure Config (EtcdCfg CliCfg HttpCfg SockCfg : Type) where
  EnableHttp : Bool
  EnableSocket : Bool
  OuterHttpServer : HttpCfg
  OuterSocketServer : SockCfg
  InnerSocketServer : SockCfg
  InnerSocketClient : CliCfg
  Etcd : EtcdCfg

/-- The business strategy handed to `logic.SetBusiness`. -/
inductive Business (B : Type) where
  | default : Business B
  | custom : B → Business B
deriving DecidableEq, Repr

/-- The protocol function handed to the client and to the socket server. -/
inductive ProtoFunc (F : Type) where
  | newFastProtoFunc : ProtoFunc F
  | custom : F → ProtoFunc F
deriving DecidableEq, Repr

/-- The calls `Run` makes after its two checks, in program order; the two `go`
statements start the transport listeners. -/
inductive RunEvent (CliCfg HttpCfg SockCfg EtcdClient B F : Type) where
  | setBusiness : Business B → RunEvent CliCfg HttpCfg SockCfg EtcdClient B F
  | clientInit : CliCfg → ProtoFunc F → EtcdClient → RunEvent CliCfg HttpCfg SockCfg EtcdClient B F
  | goHttpServe : HttpCfg → RunEvent CliCfg HttpCfg SockCfg EtcdClient B F
  | goSocketServe : SockCfg → SockCfg → ProtoFunc F →
      RunEvent CliCfg HttpCfg SockCfg EtcdClient B F
deriving DecidableEq, Repr

/-- How a call of `Run` ends: it returns an error to its caller, or it reaches
`select {}` and blocks for ever. -/
inductive RunEnd where
  | returned : Option String → RunEnd
  | parked : RunEnd
deriving DecidableEq, Repr

section

variable {EtcdCfg CliCfg HttpCfg SockCfg EtcdClient B F : Type}

/-- Function `Run`.  `check` is `cfg.check()` and `easyNew` is `etcd.EasyNew`; `none` is a nil
error, a nil `biz` and a nil `protoFunc`. -/
def Run (check : Config EtcdCfg CliCfg HttpCfg SockCfg → Option String)
    (easyNew : EtcdCfg → EtcdClient × Option String)
    (cfg : Config EtcdCfg CliCfg HttpCfg SockCfg)
    (biz : Option B) (protoFunc : Option F) :
    List (RunEvent CliCfg HttpCfg SockCfg EtcdClient B F) × RunEnd :=
  match check cfg with
  | some err => ([], .returned (some err))
  | none =>
    match easyNew cfg.Etcd with
    | (_, some err) => ([], .returned (some err))
    | (etcdClient, none) =>
      let biz : Business B :=
        match biz with
        | none => .default
        | some b => .custom b
      let protoFunc : ProtoFunc F :=
        match protoFunc with
        | none => .newFastProtoFunc
        | some f => .custom f
      let ev : List (RunEvent CliCfg HttpCfg SockCfg EtcdClient B F) :=
        [.setBusiness biz, .clientInit cfg.InnerSocketClient protoFunc etcdClient]
      let ev := if cfg.EnableHttp then ev ++ [.goHttpServe cfg.OuterHttpServer] else ev
      let ev :=
        if cfg.EnableSocket then
          ev ++ [.goSocketServe cfg.OuterSocketServer cfg.InnerSocketServer protoFunc]
        else ev
      (ev, .parked)

/-- Whether the event starts the HTTP listener. -/
def RunEvent.isHttp : RunEvent CliCfg HttpCfg SockCfg EtcdClient B F → Bool
  | .goHttpServe _ => true
  | _ => false

/-- Whether the event starts the socket listener. -/
def RunEvent.isSocket : RunEvent CliCfg HttpCfg SockCfg EtcdClient B F → Bool
  | .goSocketServe _ _ _ => true
  | _ => false

end

end Gateway

/-! ## The websocket gateway: `authChecker` and `Serve` -/

namespace Websocket

open Micro (Status)

/-- The calls `authChecker` makes, in program order. -/
inductive AuthEvent (Sess : Type) where
  | recvOnce : AuthEvent Sess
  | infof : String → AuthEvent Sess
  | authAndLogon : String → Sess → AuthEvent Sess
deriving DecidableEq, Repr

/-- What the `authChecker` callback leaves behind: the named results `ret` (an
`interface{}`: nil, or the string it holds) and `stat`, the calls made, and the world. -/
structure AuthResult (Sess W : Type) where
  ret : Option String
  stat : Option Status
  trace : List (AuthEvent Sess)
  world : W

/-- The callback given to `auth.NewCheckerPlugin`.  `fn authInfo w` is the receive
function applied to `&authInfo`: it yields what `authInfo` holds afterwards, the status
and the new world.  `authAndLogon` is `webSocketConnTabPlugin.authAndLogon`. -/
def authChecker {Sess W : Type}
    (authAndLogon : String → Sess → W → Option Status × W)
    (sess : Sess) (fn : String → W → String × Option Status × W) (w : W) :
    AuthResult Sess W :=
  let authInfo := ""
  let r := fn authInfo w
  let authInfo := r.1
  let stat := r.2.1
  let w := r.2.2
  if ¬ Status.OK stat then
    { ret := none, stat := stat, trace := [.recvOnce], world := w }
  else
    let r := authAndLogon authInfo sess w
    let stat := r.1
    let w := r.2
    if ¬ Status.OK stat then
      { ret := none, stat := stat,
        trace := [.recvOnce, .infof authInfo, .authAndLogon authInfo sess], world := w }
    else
      { ret := some "", stat := none,
        trace := [.recvOnce, .infof authInfo, .authAndLogon authInfo sess], world := w }

/-- The plugins `Serve` passes to `ws.NewServer`. -/
inductive WsPlugin where
  | authChecker : WsPlugin
  | webSocketConnTabPlugin : WsPlugin
  | proxy : WsPlugin
  | preWritePushPlugin : WsPlugin
deriving DecidableEq, Repr

/-- The plugin arguments of `ws.NewServer` in `Serve`, in the order they are written. -/
def servePlugins : List WsPlugin :=
  [.authChecker, .webSocketConnTabPlugin, .proxy, .preWritePushPlugin]

/-- Whether the event is a call of the receive function. -/
def AuthEvent.isRecv {Sess : Type} : AuthEvent Sess → Bool
  | .recvOnce => true
  | _ => false

/-- Whether the event is a call of `authAndLogon`. -/
def AuthEvent.isLogon {Sess : Type} : AuthEvent Sess → Bool
  | .authAndLogon _ _ => true
  | _ => false

/-- Modelled from the spec: the per-session state of the engine's handshake, which is
not part of this repository's sources: New, then Authenticated (normal traffic allowed)
or Rejected (connection closed, no further traffic processed). -/
inductive SessState where
  | new : SessState
  | authenticated : SessState
  | rejected : SessState
deriving DecidableEq, Repr

/-- What the engine does on a session, in order: the handshake plugin returned a
status, a request was handed to the proxy plugin, the connection was closed. -/
inductive SessEvent (Frame : Type) where
  | authReturned : Option Status → SessEvent Frame
  | dispatched : Frame → SessEvent Frame
  | closed : SessEvent Frame

/-- Modelled from the spec: one step of the engine's per-session worker, which is not
part of this repository's sources.  On a new session the next inbound frame is the
authentication payload: it is read once by the receive function bound to the session
and `authChecker` decides; an OK status promotes the session, any other closes it.
On an authenticated session a frame is business traffic and is dispatched.  A rejected
session processes nothing. -/
def sessionStep {Sess W Frame : Type}
    (authAndLogon : String → Sess → W → Option Status × W)
    (recv : Frame → String → W → String × Option Status × W) (sess : Sess) :
    SessState × W → Frame → (SessState × W) × List (SessEvent Frame)
  | (.new, w), f =>
    let r := authChecker authAndLogon sess (recv f) w
    if Status.OK r.stat then ((.authenticated, r.world), [.authReturned r.stat])
    else ((.rejected, r.world), [.authReturned r.stat, .closed])
  | (.authenticated, w), f => ((.authenticated, w), [.dispatched f])
  | (.rejected, w), _ => ((.rejected, w), [])

/-- Modelled from the spec: the engine's per-session worker run over the inbound frames
of one session; the result is everything it did, in order. -/
def sessionRun {Sess W Frame : Type}
    (authAndLogon : String → Sess → W → Option Status × W)
    (recv : Frame → String → W → String × Option Status × W) (sess : Sess) :
    SessState × W → List Frame → List (SessEvent Frame)
  | _, [] => []
  | st, f :: fs =>
    let r := sessionStep authAndLogon recv sess st f
    r.2 ++ sessionRun authAndLogon recv sess r.1 fs

end Websocket

/-! ## Theorems: `SrvConfig.Reload` -/

namespace Micro

theorem string_length_eq_zero_iff (s : String) : s.length = 0 ↔ s = "" := by
  cases s with
  | mk l =>
    cases l with
    | nil => exact ⟨fun _ => rfl, fun _ => rfl⟩
    | cons a t =>
      constructor
      · intro h; simp [String.length] at h
      · intro h; exact absurd (congrArg String.data h) (by simp)

/-- C10. After `Reload`, `Network` is "tcp" if `bind` left it empty and otherwise what
`bind` left, `ListenAddress` is "0.0.0.0:9090" if `bind` left it empty and otherwise
what `bind` left, no other field differs from what `bind` left, the returned error is
exactly `bind`'s, neither of the two fields is empty, and the defaulting step is
idempotent. -/
theorem Reload_defaults (s : SrvConfig) (bind : SrvConfig → SrvConfig × Option String) :
    ((s.Reload bind).1.Network
        = if (bind s).1.Network = "" then "tcp" else (bind s).1.Network) ∧
    ((s.Reload bind).1.ListenAddress
        = if (bind s).1.ListenAddress = "" then "0.0.0.0:9090" else (bind s).1.ListenAddress) ∧
    (s.Reload bind).1.TlsCertFile = (bind s).1.TlsCertFile ∧
    (s.Reload bind).1.TlsKeyFile = (bind s).1.TlsKeyFile ∧
    (s.Reload bind).1.DefaultSessionAge = (bind s).1.DefaultSessionAge ∧
    (s.Reload bind).1.DefaultContextAge = (bind s).1.DefaultContextAge ∧
    (s.Reload bind).1.SlowCometDuration = (bind s).1.SlowCometDuration ∧
    (s.Reload bind).1.DefaultBodyCodec = (bind s).1.DefaultBodyCodec ∧
    (s.Reload bind).1.PrintDetail = (bind s).1.PrintDetail ∧
    (s.Reload bind).1.CountTime = (bind s).1.CountTime ∧
    (s.Reload bind).1.EnableHeartbeat = (bind s).1.EnableHeartbeat ∧
    (s.Reload bind).2 = (bind s).2 ∧
    (s.Reload bind).1.Network ≠ "" ∧
    (s.Reload bind).1.ListenAddress ≠ "" ∧
    (s.Reload bind).1.applyDefaults = (s.Reload bind).1 := by
  generalize hb : bind s = b
  obtain ⟨c, e⟩ := b
  have hr : s.Reload bind = (c.applyDefaults, e) := by simp [SrvConfig.Reload, hb]
  rw [hr]
  by_cases hn : c.Network = "" <;> by_cases ha : c.ListenAddress = "" <;>
    simp [SrvConfig.applyDefaults, string_length_eq_zero_iff, hn, ha]

/-! ## Theorems: `net.SplitHostPort`, `strconv.Atoi` and `SrvConfig.PeerConfig` -/

theorem lastIndexByte_drop (l : List Char) (c : Char) (i : Nat)
    (h : lastIndexByte l c = some i) : l.drop i = c :: l.drop (i + 1) := by
  induction l generalizing i with
  | nil => simp [lastIndexByte] at h
  | cons x xs ih =>
    unfold lastIndexByte at h
    cases hx : lastIndexByte xs c with
    | some j =>
      rw [hx] at h
      simp only [Option.some.injEq] at h
      subst h
      simpa using ih j hx
    | none =>
      rw [hx] at h
      by_cases hc : x = c
      · simp [hc] at h
        subst h
        simp [hc]
      · simp [hc] at h

theorem indexByte_drop (l : List Char) (c : Char) (e : Nat)
    (h : indexByte l c = some e) : l.drop e = c :: l.drop (e + 1) := by
  induction l generalizing e with
  | nil => simp [indexByte] at h
  | cons x xs ih =>
    unfold indexByte at h
    by_cases hc : x = c
    · simp [hc] at h
      subst h
      simp [hc]
    · simp only [hc, if_false, Option.map_eq_some'] at h
      obtain ⟨j, hj, rfl⟩ := h
      simpa using ih j hj

/-- A successful split cuts the address at its last colon: the address is `host:port`,
or `[host]:port` when it opens with a bracket. -/
theorem splitHostPortChars_form (l h p : List Char)
    (hs : splitHostPortChars l = Except.ok (h, p)) :
    l = h ++ ':' :: p ∨ l = '[' :: (h ++ ']' :: ':' :: p) := by
  unfold splitHostPortChars at hs
  cases hi : lastIndexByte l ':' with
  | none => simp [hi] at hs
  | some i =>
    have hdi := lastIndexByte_drop l ':' i hi
    simp only [hi] at hs
    by_cases hb : l.head? = some '['
    · simp only [hb, if_true] at hs
      cases he : indexByte l ']' with
      | none => simp [he] at hs
      | some e =>
        have hde := indexByte_drop l ']' e he
        simp only [he] at hs
        split_ifs at hs with h1 h2 h3 h4
        simp only [Except.ok.injEq, Prod.mk.injEq] at hs
        obtain ⟨rfl, rfl⟩ := hs
        right
        cases l with
        | nil => simp at hb
        | cons x xs =>
          simp only [List.head?_cons, Option.some.injEq] at hb
          subst hb
          cases e with
          | zero => simp [indexByte] at he
          | succ e2 =>
            subst h2
            have h5 : ('[' :: xs) = List.take (e2 + 1) ('[' :: xs) ++ List.drop (e2 + 1) ('[' :: xs) :=
              (List.take_append_drop _ _).symm
            rw [hde, hdi] at h5
            simpa using h5
    · simp only [hb, if_false] at hs
      split_ifs at hs with h1 h2 h3
      simp only [Except.ok.injEq, Prod.mk.injEq] at hs
      obtain ⟨rfl, rfl⟩ := hs
      left
      have h5 : l = List.take i l ++ List.drop i l := (List.take_append_drop _ _).symm
      rw [hdi] at h5
      exact h5

theorem digitVal_of_isDigit (c : Char) (h : c.isDigit = true) :
    digitVal c = some (c.toNat - '0'.toNat) := by
  unfold digitVal
  have : '0' ≤ c ∧ c ≤ '9' := by
    simp only [Char.isDigit, Bool.and_eq_true, decide_eq_true_eq] at h
    exact ⟨h.1, h.2⟩
  simp [this]

theorem isDigit_ne_sign (c : Char) (h : c.isDigit = true) : c ≠ '-' ∧ c ≠ '+' := by
  constructor
  · intro hc; subst hc; exact absurd h (by decide)
  · intro hc; subst hc; exact absurd h (by decide)

theorem decimal_foldl_ge (l : List Char) (n : Nat) :
    n ≤ l.foldl (fun n c => n * 10 + (c.toNat - '0'.toNat)) n := by
  induction l generalizing n with
  | nil => simp
  | cons c cs ih =>
    simp only [List.foldl_cons]
    exact le_trans (by omega) (ih _)

/-- The fast-path loop of `Atoi` computes the decimal value of a run of digits. -/
theorem atoiFast_digits (l : List Char) (n : Nat) (hd : ∀ c ∈ l, c.isDigit = true) :
    atoiFast l n = some (l.foldl (fun n c => n * 10 + (c.toNat - '0'.toNat)) n) := by
  induction l generalizing n with
  | nil => rfl
  | cons c cs ih =>
    have hc := digitVal_of_isDigit c (hd c (List.mem_cons_self _ _))
    simp only [atoiFast, hc, List.foldl_cons]
    exact ih _ (fun x hx => hd x (List.mem_cons_of_mem _ hx))

/-- The loop of `ParseUint` computes the decimal value of a run of digits when that
value stays below the overflow cutoff and within the maximal value. -/
theorem parseUintLoop_digits (cutoff maxVal : Nat) (l : List Char) (n : Nat)
    (hd : ∀ c ∈ l, c.isDigit = true)
    (hc : l.foldl (fun n c => n * 10 + (c.toNat - '0'.toNat)) n < cutoff)
    (hm : l.foldl (fun n c => n * 10 + (c.toNat - '0'.toNat)) n ≤ maxVal) :
    parseUintLoop cutoff maxVal l n
      = UintResult.ok (l.foldl (fun n c => n * 10 + (c.toNat - '0'.toNat)) n) := by
  induction l generalizing n with
  | nil => rfl
  | cons c cs ih =>
    have hdc := digitVal_of_isDigit c (hd c (List.mem_cons_self _ _))
    simp only [List.foldl_cons] at hc hm ⊢
    have h1 := decimal_foldl_ge cs (n * 10 + (c.toNat - '0'.toNat))
    have hn : ¬ n ≥ cutoff := by omega
    have hn1 : ¬ n * 10 + (c.toNat - '0'.toNat) > maxVal := by omega
    simp only [parseUintLoop, hdc, hn, hn1, if_false]
    exact ih _ (fun x hx => hd x (List.mem_cons_of_mem _ hx)) hc hm

/-- Calling `Atoi` on a non-empty run of digits whose value is at most 65535 returns that value
and no error, whatever the length of the run. -/
theorem atoiChars_decimal (l : List Char) (hne : l ≠ [])
    (hd : ∀ c ∈ l, c.isDigit = true)
    (hv : l.foldl (fun n c => n * 10 + (c.toNat - '0'.toNat)) 0 ≤ 65535) :
    atoiChars l
      = (((l.foldl (fun n c => n * 10 + (c.toNat - '0'.toNat)) 0 : Nat) : Int), false) := by
  cases l with
  | nil => exact absurd rfl hne
  | cons c cs =>
    obtain ⟨hm, hp⟩ := isDigit_ne_sign c (hd c (List.mem_cons_self _ _))
    unfold atoiChars
    by_cases hlen : 0 < (c :: cs).length ∧ (c :: cs).length < 19
    · simp only [hlen, and_self, if_true, hm, hp, or_self, if_false]
      rw [atoiFast_digits (c :: cs) 0 hd]
      simp
    · simp only [hlen, if_false]
      unfold parseInt
      simp only [hm, hp, or_self, if_false]
      have hu : parseUint (c :: cs)
          = UintResult.ok ((c :: cs).foldl (fun n c => n * 10 + (c.toNat - '0'.toNat)) 0) := by
        unfold parseUint
        simp only [reduceCtorEq, if_false]
        exact parseUintLoop_digits _ _ _ _ hd (lt_of_le_of_lt hv (by norm_num))
          (le_trans hv (by norm_num [intSize]))
      rw [hu]
      generalize (c :: cs).foldl (fun n c => n * 10 + (c.toNat - '0'.toNat)) 0 = v at hv
      have hcut : ¬ (v ≥ 2 ^ (intSize - 1)) := by
        norm_num [intSize]; omega
      simp [hcut]

theorem toUint16_of_le (n : Nat) (h : n ≤ 65535) : toUint16 (n : Int) = n := by
  unfold toUint16
  omega

/-- The host and port of a successful `SplitHostPort` give the address back. -/
theorem SplitHostPort_form (a host port : String)
    (h : SplitHostPort a = Except.ok (host, port)) :
    a = host ++ ":" ++ port ∨ a = "[" ++ host ++ "]:" ++ port := by
  unfold SplitHostPort at h
  cases hc : splitHostPortChars a.data with
  | error e => simp [hc] at h
  | ok hp =>
    obtain ⟨hh, pp⟩ := hp
    simp only [hc, Except.ok.injEq, Prod.mk.injEq] at h
    obtain ⟨rfl, rfl⟩ := h
    rcases splitHostPortChars_form a.data hh pp hc with hf | hf
    · left
      apply String.ext
      simp [String.data_append, hf]
    · right
      apply String.ext
      simp [String.data_append, hf]

/-- C7, as stated, fails: with the port text "http", which is not a number, and with the
port text "70000", which is out of range, `PeerConfig` returns instead of aborting; the
listen port it returns is 0 in the first case and 70000 modulo 65536 in the second. -/
theorem PeerConfig_returns_on_bad_port :
    (∃ pc, ({ zeroSrvConfig with ListenAddress := "0.0.0.0:http" } : SrvConfig).PeerConfig
        = Exec.ret pc ∧ pc.LocalIP = "0.0.0.0" ∧ pc.ListenPort = 0) ∧
    decimalValue "http" = none ∧
    (∃ pc, ({ zeroSrvConfig with ListenAddress := "0.0.0.0:70000" } : SrvConfig).PeerConfig
        = Exec.ret pc ∧ pc.LocalIP = "0.0.0.0" ∧ pc.ListenPort = 4464) ∧
    decimalValue "70000" = some 70000 :=
  ⟨⟨_, rfl, rfl, rfl⟩, by decide, ⟨_, rfl, rfl, by decide⟩, by decide⟩

/-- C7, amended. Whenever `PeerConfig` returns, the listen address is `host:port` (or
`[host]:port`) for the host and port `SplitHostPort` yields, the returned `LocalIP` is
that host, and the returned `ListenPort` is the port number whenever the port is a
decimal number in 0..65535.  An address that does not split is fatal; an address that
splits is never fatal, whatever its port. -/
theorem PeerConfig_address (cfg : SrvConfig) :
    (∀ pc, cfg.PeerConfig = Exec.ret pc →
      ∃ host port, SplitHostPort cfg.ListenAddress = Except.ok (host, port) ∧
        (cfg.ListenAddress = host ++ ":" ++ port ∨
          cfg.ListenAddress = "[" ++ host ++ "]:" ++ port) ∧
        pc.LocalIP = host ∧
        (∀ n, decimalValue port = some n → n ≤ 65535 → pc.ListenPort = n)) ∧
    ((∀ hp, SplitHostPort cfg.ListenAddress ≠ Except.ok hp) →
      ∃ e, cfg.PeerConfig = Exec.fatal e) ∧
    (∀ host port, SplitHostPort cfg.ListenAddress = Except.ok (host, port) →
      ∃ pc, cfg.PeerConfig = Exec.ret pc) := by
  refine ⟨?_, ?_, ?_⟩
  · intro pc hpc
    unfold SrvConfig.PeerConfig at hpc
    cases hs : SplitHostPort cfg.ListenAddress with
    | error e => simp [hs] at hpc
    | ok hp =>
      obtain ⟨host, port⟩ := hp
      simp only [hs, Exec.ret.injEq] at hpc
      subst hpc
      refine ⟨host, port, rfl, SplitHostPort_form _ _ _ hs, rfl, ?_⟩
      intro n hn hle
      unfold decimalValue at hn
      split_ifs at hn with hdec
      simp only [Option.some.injEq] at hn
      have hd : ∀ c ∈ port.data, c.isDigit = true := by
        simpa [List.all_eq_true] using hdec.2
      subst hn
      show toUint16 (Atoi port).1 = _
      unfold Atoi
      rw [atoiChars_decimal port.data hdec.1 hd hle]
      exact toUint16_of_le _ hle
  · intro hno
    unfold SrvConfig.PeerConfig
    cases hs : SplitHostPort cfg.ListenAddress with
    | error e => exact ⟨e, rfl⟩
    | ok hp => exact absurd hs (hno hp)
  · intro host port hs
    unfold SrvConfig.PeerConfig
    simp [hs]

/-- The address "0.0.0.0:9090" gives the local IP "0.0.0.0" and the listen port 9090. -/
theorem PeerConfig_address_witness :
    ∃ pc, ({ zeroSrvConfig with ListenAddress := "0.0.0.0:9090" } : SrvConfig).PeerConfig
        = Exec.ret pc ∧
      ∃ host port, SplitHostPort "0.0.0.0:9090" = Except.ok (host, port) ∧
        pc.LocalIP = host ∧ decimalValue port = some 9090 ∧ pc.ListenPort = 9090 := by
  refine ⟨_, rfl, ?_⟩
  obtain ⟨host, port, hs, -, hl, hn⟩ :=
    (PeerConfig_address { zeroSrvConfig with ListenAddress := "0.0.0.0:9090" }).1 _ rfl
  have hs2 : SplitHostPort "0.0.0.0:9090" = Except.ok ("0.0.0.0", "9090") := rfl
  have heq : (host, port) = ("0.0.0.0", "9090") :=
    Except.ok.inj (hs.symm.trans hs2)
  obtain ⟨rfl, rfl⟩ := Prod.mk.inj heq
  exact ⟨_, _, hs2, hl, by decide, hn 9090 (by decide) (by decide)⟩

/-! ## Theorems: `NewServer` -/

section

variable {P : Type}

/-- Calling `PeerConfig` returns exactly when the listen address splits. -/
theorem PeerConfig_returns_iff_splits (cfg : SrvConfig) :
    (∃ pc, cfg.PeerConfig = Exec.ret pc) ↔ (∃ hp, SplitHostPort cfg.ListenAddress = Except.ok hp) := by
  unfold SrvConfig.PeerConfig
  cases h : SplitHostPort cfg.ListenAddress with
  | error e => simp
  | ok hp => obtain ⟨a, b⟩ := hp; simp

/-- The six ways `NewServer` can run. -/
theorem NewServer_cases (rerr : Status) (quote : String → String)
    (newPeerExits : PeerConfig → List (Plugin P) → Option String)
    (appendRightExits : PluginContainer P → Plugin P → Option String)
    (loadTLS : String → String → Option String) (cfg : SrvConfig) (ps : List (Plugin P)) :
    (∃ e, cfg.PeerConfig = Exec.fatal e ∧
      NewServer rerr quote newPeerExits appendRightExits loadTLS cfg ps
        = ([SrvEvent.doInit, SrvEvent.fatalf e], Exec.fatal e)) ∨
    (∃ pc e, cfg.PeerConfig = Exec.ret pc ∧
      newPeerExits pc (if cfg.EnableHeartbeat then ps ++ [Plugin.heartbeatPong] else ps)
        = some e ∧
      NewServer rerr quote newPeerExits appendRightExits loadTLS cfg ps =
        ([SrvEvent.doInit,
          SrvEvent.newPeer pc (if cfg.EnableHeartbeat then ps ++ [Plugin.heartbeatPong] else ps),
          SrvEvent.fatalf e],
         Exec.fatal e)) ∨
    (∃ pc e, cfg.PeerConfig = Exec.ret pc ∧
      newPeerExits pc (if cfg.EnableHeartbeat then ps ++ [Plugin.heartbeatPong] else ps)
        = none ∧
      appendRightExits
        { left := if cfg.EnableHeartbeat then ps ++ [Plugin.heartbeatPong] else ps, right := [] }
        Plugin.structArgsBinder = some e ∧
      NewServer rerr quote newPeerExits appendRightExits loadTLS cfg ps =
        ([SrvEvent.doInit,
          SrvEvent.newPeer pc (if cfg.EnableHeartbeat then ps ++ [Plugin.heartbeatPong] else ps),
          SrvEvent.appendRight Plugin.structArgsBinder,
          SrvEvent.fatalf e],
         Exec.fatal e)) ∨
    (∃ pc, cfg.PeerConfig = Exec.ret pc ∧
      newPeerExits pc (if cfg.EnableHeartbeat then ps ++ [Plugin.heartbeatPong] else ps)
        = none ∧
      appendRightExits
        { left := if cfg.EnableHeartbeat then ps ++ [Plugin.heartbeatPong] else ps, right := [] }
        Plugin.structArgsBinder = none ∧
      ¬ (cfg.TlsCertFile ≠ "" ∧ cfg.TlsKeyFile ≠ "") ∧
      NewServer rerr quote newPeerExits appendRightExits loadTLS cfg ps =
        ([SrvEvent.doInit,
          SrvEvent.newPeer pc (if cfg.EnableHeartbeat then ps ++ [Plugin.heartbeatPong] else ps),
          SrvEvent.appendRight Plugin.structArgsBinder],
         Exec.ret
          { peer :=
              { cfg := pc
                pluginContainer :=
                  { left := if cfg.EnableHeartbeat then ps ++ [Plugin.heartbeatPong] else ps
                    right := [Plugin.structArgsBinder] }
                tls := none }
            binder := { errFunc := some (defaultBindErrorFunc rerr quote) } })) ∨
    (∃ pc e, cfg.PeerConfig = Exec.ret pc ∧
      newPeerExits pc (if cfg.EnableHeartbeat then ps ++ [Plugin.heartbeatPong] else ps)
        = none ∧
      appendRightExits
        { left := if cfg.EnableHeartbeat then ps ++ [Plugin.heartbeatPong] else ps, right := [] }
        Plugin.structArgsBinder = none ∧
      (cfg.TlsCertFile ≠ "" ∧ cfg.TlsKeyFile ≠ "") ∧
      loadTLS cfg.TlsCertFile cfg.TlsKeyFile = some e ∧
      NewServer rerr quote newPeerExits appendRightExits loadTLS cfg ps =
        ([SrvEvent.doInit,
          SrvEvent.newPeer pc (if cfg.EnableHeartbeat then ps ++ [Plugin.heartbeatPong] else ps),
          SrvEvent.appendRight Plugin.structArgsBinder,
          SrvEvent.setTLSConfigFromFile cfg.TlsCertFile cfg.TlsKeyFile,
          SrvEvent.fatalf e],
         Exec.fatal e)) ∨
    (∃ pc, cfg.PeerConfig = Exec.ret pc ∧
      newPeerExits pc (if cfg.EnableHeartbeat then ps ++ [Plugin.heartbeatPong] else ps)
        = none ∧
      appendRightExits
        { left := if cfg.EnableHeartbeat then ps ++ [Plugin.heartbeatPong] else ps, right := [] }
        Plugin.structArgsBinder = none ∧
      (cfg.TlsCertFile ≠ "" ∧ cfg.TlsKeyFile ≠ "") ∧
      loadTLS cfg.TlsCertFile cfg.TlsKeyFile = none ∧
      NewServer rerr quote newPeerExits appendRightExits loadTLS cfg ps =
        ([SrvEvent.doInit,
          SrvEvent.newPeer pc (if cfg.EnableHeartbeat then ps ++ [Plugin.heartbeatPong] else ps),
          SrvEvent.appendRight Plugin.structArgsBinder,
          SrvEvent.setTLSConfigFromFile cfg.TlsCertFile cfg.TlsKeyFile],
         Exec.ret
          { peer :=
              { cfg := pc
                pluginContainer :=
                  { left := if cfg.EnableHeartbeat then ps ++ [Plugin.heartbeatPong] else ps
                    right := [Plugin.structArgsBinder] }
                tls := some (cfg.TlsCertFile, cfg.TlsKeyFile) }
            binder := { errFunc := some (defaultBindErrorFunc rerr quote) } })) := by
  have hlen : ∀ s : String, s.length > 0 ↔ s ≠ "" := fun s => by
    show 0 < s.length ↔ s ≠ ""
    rw [Nat.pos_iff_ne_zero, Ne, string_length_eq_zero_iff]
  cases hpc : cfg.PeerConfig with
  | fatal e => left; exact ⟨e, rfl, by simp [NewServer, hpc]⟩
  | ret pc =>
    right
    cases hnp : newPeerExits pc
        (if cfg.EnableHeartbeat then ps ++ [Plugin.heartbeatPong] else ps) with
    | some e =>
      left
      exact ⟨pc, e, rfl, hnp, by simp [NewServer, hpc, NewPeer, hnp]⟩
    | none =>
      right
      cases har : appendRightExits
          { left := if cfg.EnableHeartbeat then ps ++ [Plugin.heartbeatPong] else ps,
            right := [] } Plugin.structArgsBinder with
      | some e =>
        left
        exact ⟨pc, e, rfl, hnp, rfl,
          by simp [NewServer, hpc, NewPeer, hnp, PluginContainer.AppendRight, har]⟩
      | none =>
        right
        by_cases ht : cfg.TlsCertFile ≠ "" ∧ cfg.TlsKeyFile ≠ ""
        · right
          cases hl : loadTLS cfg.TlsCertFile cfg.TlsKeyFile with
          | some e =>
            left
            refine ⟨pc, e, rfl, hnp, rfl, ht, rfl, ?_⟩
            simp [NewServer, hpc, NewPeer, hnp, PluginContainer.AppendRight, har, hlen, ht, hl]
          | none =>
            right
            refine ⟨pc, rfl, hnp, rfl, ht, rfl, ?_⟩
            simp [NewServer, hpc, NewPeer, hnp, PluginContainer.AppendRight, har, hlen, ht, hl,
              Server.SetBindErrorFunc, StructArgsBinder.SetErrorFunc]
        · left
          refine ⟨pc, rfl, hnp, rfl, ht, ?_⟩
          have ht2 : ¬ (cfg.TlsCertFile.length > 0 ∧ cfg.TlsKeyFile.length > 0) := by
            rw [hlen, hlen]; exact ht
          simp only [NewServer, hpc, NewPeer, hnp, PluginContainer.AppendRight, har, ht2]
          simp [Server.SetBindErrorFunc, StructArgsBinder.SetErrorFunc]

/-- With the sample engine check, a network the engine refuses ends `NewServer` inside
`erpc.NewPeer`: the plugin list has been handed over, but the binder is not appended, no
TLS load is attempted and no server is returned. -/
theorem NewServer_exits_in_NewPeer_on_refused_network :
    NewServer { code := 400, msg := "Invalid Parameter", cause := "" } id
        sampleNewPeerExits (fun _ _ => none) (fun _ _ => none)
        { zeroSrvConfig with Network := "bogus", ListenAddress := "0.0.0.0:9090",
                             TlsCertFile := "cert.pem", TlsKeyFile := "key.pem" }
        ([] : List (Plugin Unit))
      = ([SrvEvent.doInit,
          SrvEvent.newPeer
            { DefaultSessionAge := 0, DefaultContextAge := 0, SlowCometDuration := 0,
              DefaultBodyCodec := "", PrintDetail := false, CountTime := false,
              Network := "bogus", LocalIP := "0.0.0.0", ListenPort := 9090 } [],
          SrvEvent.fatalf "Invalid network config"],
         Exec.fatal "Invalid network config") := by
  rfl

/-- C6, as stated, fails: on the zero-value configuration no TLS load is attempted, yet
no server is returned, because the empty listen address is fatal in `PeerConfig`. -/
theorem NewServer_zero_config_fatal_without_tls_attempt :
    (NewServer { code := 400, msg := "Invalid Parameter", cause := "" } id
        sampleNewPeerExits (fun _ _ => none) (fun _ _ => none)
        zeroSrvConfig ([] : List (Plugin Unit))).1
      = [SrvEvent.doInit, SrvEvent.fatalf "missing port in address"] ∧
    (∀ c k, SrvEvent.setTLSConfigFromFile c k ∉
      (NewServer { code := 400, msg := "Invalid Parameter", cause := "" } id
        sampleNewPeerExits (fun _ _ => none) (fun _ _ => none)
        zeroSrvConfig ([] : List (Plugin Unit))).1) ∧
    (NewServer { code := 400, msg := "Invalid Parameter", cause := "" } id
        sampleNewPeerExits (fun _ _ => none) (fun _ _ => none)
        zeroSrvConfig ([] : List (Plugin Unit))).2.returns = false := by
  have h : (NewServer { code := 400, msg := "Invalid Parameter", cause := "" } id
        sampleNewPeerExits (fun _ _ => none) (fun _ _ => none)
        zeroSrvConfig ([] : List (Plugin Unit)))
      = ([SrvEvent.doInit, SrvEvent.fatalf "missing port in address"],
          Exec.fatal "missing port in address") := rfl
  rw [h]
  simp [Exec.returns]

/-- C6, amended. When the listen address splits into host and port and neither the
engine's peer construction nor its registration of the binder exits, `NewServer` attempts
a TLS load (of exactly the configured pair) if and only if both paths are non-empty; an
attempted load that fails is fatal and no server is returned; when no load is attempted
or the load succeeds a server is returned. -/
theorem NewServer_tls_load (rerr : Status) (quote : String → String)
    (newPeerExits : PeerConfig → List (Plugin P) → Option String)
    (appendRightExits : PluginContainer P → Plugin P → Option String)
    (loadTLS : String → String → Option String) (cfg : SrvConfig) (ps : List (Plugin P))
    (hsplit : ∃ hp, SplitHostPort cfg.ListenAddress = Except.ok hp)
    (hnew : ∀ pc, cfg.PeerConfig = Exec.ret pc →
      newPeerExits pc (if cfg.EnableHeartbeat then ps ++ [Plugin.heartbeatPong] else ps) = none)
    (happ : appendRightExits
      { left := if cfg.EnableHeartbeat then ps ++ [Plugin.heartbeatPong] else ps, right := [] }
      Plugin.structArgsBinder = none) :
    ((∃ c k, SrvEvent.setTLSConfigFromFile c k ∈
        (NewServer rerr quote newPeerExits appendRightExits loadTLS cfg ps).1)
      ↔ (cfg.TlsCertFile ≠ "" ∧ cfg.TlsKeyFile ≠ "")) ∧
    (∀ c k, SrvEvent.setTLSConfigFromFile c k ∈
        (NewServer rerr quote newPeerExits appendRightExits loadTLS cfg ps).1 →
      c = cfg.TlsCertFile ∧ k = cfg.TlsKeyFile) ∧
    ((∃ c k, SrvEvent.setTLSConfigFromFile c k ∈
        (NewServer rerr quote newPeerExits appendRightExits loadTLS cfg ps).1) →
      ∀ e, loadTLS cfg.TlsCertFile cfg.TlsKeyFile = some e →
        (NewServer rerr quote newPeerExits appendRightExits loadTLS cfg ps).2 = Exec.fatal e) ∧
    ((¬ (∃ c k, SrvEvent.setTLSConfigFromFile c k ∈
          (NewServer rerr quote newPeerExits appendRightExits loadTLS cfg ps).1) ∨
        loadTLS cfg.TlsCertFile cfg.TlsKeyFile = none) →
      ∃ srv, (NewServer rerr quote newPeerExits appendRightExits loadTLS cfg ps).2
        = Exec.ret srv) := by
  obtain ⟨pc0, hpc0⟩ := (PeerConfig_returns_iff_splits cfg).2 hsplit
  rcases NewServer_cases rerr quote newPeerExits appendRightExits loadTLS cfg ps with
    ⟨e, hpc, -⟩ | ⟨pc, e, hpc, hnp, -⟩ | ⟨pc, e, -, -, har, -⟩ | ⟨pc, -, -, -, ht, h⟩ |
    ⟨pc, e, -, -, -, ht, hl, h⟩ | ⟨pc, -, -, -, ht, hl, h⟩
  · rw [hpc0] at hpc; cases hpc
  · rw [hnew pc hpc] at hnp; cases hnp
  · rw [happ] at har; cases har
  · rw [h]
    refine ⟨?_, ?_, ?_, ?_⟩
    · simpa using ht
    · simp
    · simp
    · intro _; exact ⟨_, rfl⟩
  · rw [h]
    refine ⟨?_, ?_, ?_, ?_⟩
    · simpa using ht
    · intro c k hm
      simpa using hm
    · intro _ e2 he2
      rw [hl] at he2
      cases he2
      rfl
    · intro hor
      rcases hor with hn | hn
      · exact absurd ⟨cfg.TlsCertFile, cfg.TlsKeyFile, by simp⟩ hn
      · rw [hl] at hn; cases hn
  · rw [h]
    refine ⟨?_, ?_, ?_, ?_⟩
    · simpa using ht
    · intro c k hm
      simpa using hm
    · intro _ e2 he2
      rw [hl] at he2
      cases he2
    · intro _; exact ⟨_, rfl⟩

/-- With a good address, a network the engine accepts and both TLS paths set, a load is
attempted, and as it fails the run is fatal. -/
theorem NewServer_tls_load_witness :
    (∃ hp, SplitHostPort
        ({ zeroSrvConfig with Network := "tcp", ListenAddress := "0.0.0.0:9090",
                              TlsCertFile := "cert.pem", TlsKeyFile := "key.pem" }
          : SrvConfig).ListenAddress = Except.ok hp) ∧
    ((∃ c k, SrvEvent.setTLSConfigFromFile c k ∈
        (NewServer { code := 400, msg := "Invalid Parameter", cause := "" } id
          sampleNewPeerExits (fun _ _ => none)
          (fun _ _ => some "open cert.pem: no such file")
          { zeroSrvConfig with Network := "tcp", ListenAddress := "0.0.0.0:9090",
                               TlsCertFile := "cert.pem", TlsKeyFile := "key.pem" }
          ([] : List (Plugin Unit))).1)
      ↔ ("cert.pem" ≠ "" ∧ "key.pem" ≠ "")) :=
  ⟨⟨("0.0.0.0", "9090"), rfl⟩,
   (NewServer_tls_load { code := 400, msg := "Invalid Parameter", cause := "" } id
      sampleNewPeerExits (fun _ _ => none)
      (fun _ _ => some "open cert.pem: no such file")
      { zeroSrvConfig with Network := "tcp", ListenAddress := "0.0.0.0:9090",
                           TlsCertFile := "cert.pem", TlsKeyFile := "key.pem" }
      ([] : List (Plugin Unit)) ⟨("0.0.0.0", "9090"), rfl⟩
      (fun pc hpc => by
        have h2 : Exec.ret pc = Exec.ret
            ({ DefaultSessionAge := 0, DefaultContextAge := 0, SlowCometDuration := 0,
               DefaultBodyCodec := "", PrintDetail := false, CountTime := false,
               Network := "tcp", LocalIP := "0.0.0.0", ListenPort := 9090 } : PeerConfig) :=
          hpc.symm.trans rfl
        cases h2
        decide)
      rfl).1⟩

/-- C8. The server `NewServer` returns, and any server after `SetBindErrorFunc(nil)`,
has the default handler as the binder error function; for all handler name, parameter
name and reason the default handler returns the `RerrInvalidParameter` status with the
cause set to the text made of the three quoted strings, in that order; after
`SetBindErrorFunc(fn)` with a non-nil `fn` the binder error function is `fn`. -/
theorem SetBindErrorFunc_default_and_custom (rerr : Status) (quote : String → String)
    (newPeerExits : PeerConfig → List (Plugin P) → Option String)
    (appendRightExits : PluginContainer P → Plugin P → Option String)
    (loadTLS : String → String → Option String) (cfg : SrvConfig) (ps : List (Plugin P))
    (s : Server P) (fn : ErrorFunc) :
    (∀ srv, (NewServer rerr quote newPeerExits appendRightExits loadTLS cfg ps).2
        = Exec.ret srv →
      srv.binder.errFunc = some (defaultBindErrorFunc rerr quote)) ∧
    ((s.SetBindErrorFunc rerr quote none).binder.errFunc
      = some (defaultBindErrorFunc rerr quote)) ∧
    (∀ handlerName paramName reason,
      defaultBindErrorFunc rerr quote handlerName paramName reason
        = some { code := rerr.code, msg := rerr.msg,
                 cause := "\x7b\"handler\": " ++ quote handlerName ++ ", \"param\": " ++
                   quote paramName ++ ", \"reason\": " ++ quote reason ++ "\x7d" }) ∧
    ((s.SetBindErrorFunc rerr quote (some fn)).binder.errFunc = some fn) ∧
    ((s.SetBindErrorFunc rerr quote none).peer = s.peer ∧
      (s.SetBindErrorFunc rerr quote (some fn)).peer = s.peer) := by
  refine ⟨?_, rfl, fun _ _ _ => rfl, rfl, rfl, rfl⟩
  intro srv hsrv
  rcases NewServer_cases rerr quote newPeerExits appendRightExits loadTLS cfg ps with
    ⟨e, -, h⟩ | ⟨pc, e, -, -, h⟩ | ⟨pc, e, -, -, -, h⟩ | ⟨pc, -, -, -, -, h⟩ |
    ⟨pc, e, -, -, -, -, -, h⟩ | ⟨pc, -, -, -, -, -, h⟩
  · rw [h] at hsrv; cases hsrv
  · rw [h] at hsrv; cases hsrv
  · rw [h] at hsrv; cases hsrv
  · rw [h] at hsrv; cases hsrv; rfl
  · rw [h] at hsrv; cases hsrv
  · rw [h] at hsrv; cases hsrv; rfl

/-- On a server built from a good address, the installed handler reports the three
strings as a structured cause on the invalid-parameter status. -/
theorem SetBindErrorFunc_default_and_custom_witness :
    ∃ srv f,
      (NewServer { code := 400, msg := "Invalid Parameter", cause := "" }
          (fun t => "\"" ++ t ++ "\"") sampleNewPeerExits (fun _ _ => none) (fun _ _ => none)
          { zeroSrvConfig with Network := "tcp", ListenAddress := "0.0.0.0:9090" }
          ([] : List (Plugin Unit))).2 = Exec.ret srv ∧
      srv.binder.errFunc = some f ∧
      f "Home.Test" "id" "required"
        = some { code := 400, msg := "Invalid Parameter",
                 cause := "\x7b\"handler\": \"Home.Test\", \"param\": \"id\", " ++
                   "\"reason\": \"required\"\x7d" } :=
  ⟨_, _, rfl,
    (SetBindErrorFunc_default_and_custom { code := 400, msg := "Invalid Parameter", cause := "" }
      (fun t => "\"" ++ t ++ "\"") sampleNewPeerExits (fun _ _ => none) (fun _ _ => none)
      { zeroSrvConfig with Network := "tcp", ListenAddress := "0.0.0.0:9090" }
      ([] : List (Plugin Unit))
      { peer :=
          { cfg :=
              { DefaultSessionAge := 0, DefaultContextAge := 0, SlowCometDuration := 0,
                DefaultBodyCodec := "", PrintDetail := false, CountTime := false,
                Network := "", LocalIP := "", ListenPort := 0 },
            pluginContainer := { left := [], right := [] }, tls := none },
        binder := { errFunc := none } }
      (fun _ _ _ => none)).1 _ rfl,
    by decide⟩

/-- C9, as stated, fails: on the zero-value configuration `NewServer` exits in
`PeerConfig`, so no plugin list is handed to the peer and the binder is never appended. -/
theorem NewServer_zero_config_hands_over_nothing :
    (∀ pc l, SrvEvent.newPeer pc l ∉
      (NewServer { code := 400, msg := "Invalid Parameter", cause := "" } id
        sampleNewPeerExits (fun _ _ => none) (fun _ _ => none)
        zeroSrvConfig [Plugin.caller (1 : Nat)]).1) ∧
    (∀ p, SrvEvent.appendRight p ∉
      (NewServer { code := 400, msg := "Invalid Parameter", cause := "" } id
        sampleNewPeerExits (fun _ _ => none) (fun _ _ => none)
        zeroSrvConfig [Plugin.caller (1 : Nat)]).1) ∧
    (NewServer { code := 400, msg := "Invalid Parameter", cause := "" } id
        sampleNewPeerExits (fun _ _ => none) (fun _ _ => none)
        zeroSrvConfig [Plugin.caller (1 : Nat)]).2.returns = false := by
  have h : (NewServer { code := 400, msg := "Invalid Parameter", cause := "" } id
        sampleNewPeerExits (fun _ _ => none) (fun _ _ => none)
        zeroSrvConfig [Plugin.caller (1 : Nat)])
      = ([SrvEvent.doInit, SrvEvent.fatalf "missing port in address"],
          Exec.fatal "missing port in address") := rfl
  rw [h]
  simp [Exec.returns]

/-- C9, amended. When the listen address splits into host and port, `NewServer` hands
the peer exactly one left plugin list: the caller's list in its order, followed by one
heartbeat pong plugin when `cfg.EnableHeartbeat` is true and by nothing when it is
false.  When the engine's peer construction does not exit, the next call appends the
struct-args binder on the right, once; and when that registration does not exit either,
the container holds the left list followed by the binder, also in the returned server. -/
theorem NewServer_plugin_order (rerr : Status) (quote : String → String)
    (newPeerExits : PeerConfig → List (Plugin P) → Option String)
    (appendRightExits : PluginContainer P → Plugin P → Option String)
    (loadTLS : String → String → Option String) (cfg : SrvConfig) (ps : List (Plugin P))
    (hsplit : ∃ hp, SplitHostPort cfg.ListenAddress = Except.ok hp) :
    ∃ pc, cfg.PeerConfig = Exec.ret pc ∧
      (∃ rest, (NewServer rerr quote newPeerExits appendRightExits loadTLS cfg ps).1
          = [SrvEvent.doInit,
              SrvEvent.newPeer pc
                (if cfg.EnableHeartbeat then ps ++ [Plugin.heartbeatPong] else ps)] ++ rest ∧
        (∀ pc2 l2, SrvEvent.newPeer pc2 l2 ∉ rest)) ∧
      (newPeerExits pc (if cfg.EnableHeartbeat then ps ++ [Plugin.heartbeatPong] else ps)
          = none →
        (∃ rest, (NewServer rerr quote newPeerExits appendRightExits loadTLS cfg ps).1
            = [SrvEvent.doInit,
                SrvEvent.newPeer pc
                  (if cfg.EnableHeartbeat then ps ++ [Plugin.heartbeatPong] else ps),
                SrvEvent.appendRight Plugin.structArgsBinder] ++ rest ∧
          (∀ p, SrvEvent.appendRight p ∉ rest)) ∧
        (appendRightExits
            { left := if cfg.EnableHeartbeat then ps ++ [Plugin.heartbeatPong] else ps,
              right := [] } Plugin.structArgsBinder = none →
          PluginContainer.AppendRight appendRightExits
              { left := if cfg.EnableHeartbeat then ps ++ [Plugin.heartbeatPong] else ps,
                right := [] } Plugin.structArgsBinder
            = Exec.ret
                { left := if cfg.EnableHeartbeat then ps ++ [Plugin.heartbeatPong] else ps,
                  right := [Plugin.structArgsBinder] } ∧
          (∀ srv, (NewServer rerr quote newPeerExits appendRightExits loadTLS cfg ps).2
              = Exec.ret srv →
            srv.peer.pluginContainer.left
              = (if cfg.EnableHeartbeat then ps ++ [Plugin.heartbeatPong] else ps) ∧
            srv.peer.pluginContainer.right = [Plugin.structArgsBinder] ∧
            srv.peer.pluginContainer.pipeline
              = (if cfg.EnableHeartbeat then ps ++ [Plugin.heartbeatPong] else ps)
                  ++ [Plugin.structArgsBinder]))) := by
  obtain ⟨pc0, hpc0⟩ := (PeerConfig_returns_iff_splits cfg).2 hsplit
  refine ⟨pc0, hpc0, ?_⟩
  have hinj : ∀ pc, cfg.PeerConfig = Exec.ret pc → pc = pc0 := fun pc h =>
    Exec.ret.inj (h.symm.trans hpc0)
  rcases NewServer_cases rerr quote newPeerExits appendRightExits loadTLS cfg ps with
    ⟨e, hpc, -⟩ | ⟨pc, e, hpc, hnp, h⟩ | ⟨pc, e, hpc, hnp, har, h⟩ | ⟨pc, hpc, hnp, har, -, h⟩ |
    ⟨pc, e, hpc, hnp, har, -, -, h⟩ | ⟨pc, hpc, hnp, har, -, -, h⟩
  · rw [hpc0] at hpc; cases hpc
  · obtain rfl := hinj pc hpc
    rw [h]
    refine ⟨⟨_, rfl, by simp⟩, ?_⟩
    intro hn
    rw [hnp] at hn; cases hn
  · obtain rfl := hinj pc hpc
    rw [h]
    refine ⟨⟨_, rfl, by simp⟩, ?_⟩
    intro _
    refine ⟨⟨_, rfl, by simp⟩, ?_⟩
    intro ha
    rw [har] at ha; cases ha
  · obtain rfl := hinj pc hpc
    rw [h]
    refine ⟨⟨_, rfl, by simp⟩, ?_⟩
    intro _
    refine ⟨⟨_, rfl, by simp⟩, ?_⟩
    intro _
    refine ⟨by simp [PluginContainer.AppendRight, har], ?_⟩
    intro srv hs; cases hs; exact ⟨rfl, rfl, rfl⟩
  · obtain rfl := hinj pc hpc
    rw [h]
    refine ⟨⟨_, rfl, by simp⟩, ?_⟩
    intro _
    refine ⟨⟨_, rfl, by simp⟩, ?_⟩
    intro _
    refine ⟨by simp [PluginContainer.AppendRight, har], ?_⟩
    intro srv hs; cases hs
  · obtain rfl := hinj pc hpc
    rw [h]
    refine ⟨⟨_, rfl, by simp⟩, ?_⟩
    intro _
    refine ⟨⟨_, rfl, by simp⟩, ?_⟩
    intro _
    refine ⟨by simp [PluginContainer.AppendRight, har], ?_⟩
    intro srv hs; cases hs; exact ⟨rfl, rfl, rfl⟩

/-- With heartbeat enabled, a good address and a network the engine accepts, the
caller's two plugins are handed over followed by the pong plugin, and the returned
server has the binder after them. -/
theorem NewServer_plugin_order_witness :
    (∃ hp, SplitHostPort
        ({ zeroSrvConfig with Network := "tcp", ListenAddress := "0.0.0.0:9090",
                              EnableHeartbeat := true } : SrvConfig).ListenAddress
          = Except.ok hp) ∧
    ∃ pc rest,
      (NewServer { code := 400, msg := "Invalid Parameter", cause := "" } id
          sampleNewPeerExits (fun _ _ => none) (fun _ _ => none)
          { zeroSrvConfig with Network := "tcp", ListenAddress := "0.0.0.0:9090",
                               EnableHeartbeat := true }
          [Plugin.caller (1 : Nat), Plugin.caller 2]).1
        = [SrvEvent.doInit,
            SrvEvent.newPeer pc [Plugin.caller 1, Plugin.caller 2, Plugin.heartbeatPong]]
          ++ rest :=
  ⟨⟨("0.0.0.0", "9090"), rfl⟩,
   (NewServer_plugin_order { code := 400, msg := "Invalid Parameter", cause := "" } id
      sampleNewPeerExits (fun _ _ => none) (fun _ _ => none)
      { zeroSrvConfig with Network := "tcp", ListenAddress := "0.0.0.0:9090",
                           EnableHeartbeat := true }
      [Plugin.caller (1 : Nat), Plugin.caller 2] ⟨("0.0.0.0", "9090"), rfl⟩).imp
    (fun _ h => h.2.1.imp (fun _ h2 => h2.1))⟩

end

end Micro

/-! ## Theorems: `gateway.Run` -/

namespace Gateway

section

variable {EtcdCfg CliCfg HttpCfg SockCfg EtcdClient B F : Type}

/-- The events of a run that passed both checks. -/
theorem Run_events_of_checks_ok
    (check : Config EtcdCfg CliCfg HttpCfg SockCfg → Option String)
    (easyNew : EtcdCfg → EtcdClient × Option String)
    (cfg : Config EtcdCfg CliCfg HttpCfg SockCfg) (biz : Option B) (protoFunc : Option F)
    (hc : check cfg = none) (he : (easyNew cfg.Etcd).2 = none) :
    ∃ b p, Run check easyNew cfg biz protoFunc =
      ([RunEvent.setBusiness b, RunEvent.clientInit cfg.InnerSocketClient p (easyNew cfg.Etcd).1]
        ++ (if cfg.EnableHttp then [RunEvent.goHttpServe cfg.OuterHttpServer] else [])
        ++ (if cfg.EnableSocket then
              [RunEvent.goSocketServe cfg.OuterSocketServer cfg.InnerSocketServer p] else []),
       RunEnd.parked) := by
  generalize hg : easyNew cfg.Etcd = r at he
  obtain ⟨c, e⟩ := r
  simp only at he
  subst he
  refine ⟨match biz with | none => .default | some b => .custom b,
          match protoFunc with | none => .newFastProtoFunc | some f => .custom f, ?_⟩
  simp only [Run, hc, hg]
  cases cfg.EnableHttp <;> cases cfg.EnableSocket <;> simp

/-- C1. When `cfg.check()` and the discovery-client construction both succeed, the HTTP
listener is started (once, on `cfg.OuterHttpServer`) exactly when `cfg.EnableHttp` is
true and the socket listener is started (once) exactly when `cfg.EnableSocket` is true;
each depends on its own flag only, and with both flags false no listener is started. -/
theorem Run_starts_exactly_enabled_transports
    (check : Config EtcdCfg CliCfg HttpCfg SockCfg → Option String)
    (easyNew : EtcdCfg → EtcdClient × Option String)
    (cfg : Config EtcdCfg CliCfg HttpCfg SockCfg) (biz : Option B) (protoFunc : Option F)
    (hc : check cfg = none) (he : (easyNew cfg.Etcd).2 = none) :
    ((Run check easyNew cfg biz protoFunc).1.any RunEvent.isHttp = cfg.EnableHttp) ∧
    ((Run check easyNew cfg biz protoFunc).1.any RunEvent.isSocket = cfg.EnableSocket) ∧
    ((Run check easyNew cfg biz protoFunc).1.filter RunEvent.isHttp
      = if cfg.EnableHttp then [RunEvent.goHttpServe cfg.OuterHttpServer] else []) ∧
    ((Run check easyNew cfg biz protoFunc).1.filter RunEvent.isSocket).length
      = (if cfg.EnableSocket then 1 else 0) ∧
    (cfg.EnableHttp = false → cfg.EnableSocket = false →
      (Run check easyNew cfg biz protoFunc).1.filter
        (fun e => e.isHttp || e.isSocket) = []) := by
  obtain ⟨b, p, h⟩ := Run_events_of_checks_ok check easyNew cfg biz protoFunc hc he
  rw [h]
  cases cfg.EnableHttp <;> cases cfg.EnableSocket <;>
    simp [RunEvent.isHttp, RunEvent.isSocket]

/-- A run with HTTP enabled and the socket disabled starts the HTTP listener only. -/
theorem Run_starts_exactly_enabled_transports_witness :
    ((Run (fun _ => none) (fun (_ : Unit) => ((), none))
        ({ EnableHttp := true, EnableSocket := false, OuterHttpServer := (),
           OuterSocketServer := (), InnerSocketServer := (), InnerSocketClient := (),
           Etcd := () } : Config Unit Unit Unit Unit)
        (none : Option Unit) (none : Option Unit)).1.any RunEvent.isHttp = true) ∧
    ((Run (fun _ => none) (fun (_ : Unit) => ((), none))
        ({ EnableHttp := true, EnableSocket := false, OuterHttpServer := (),
           OuterSocketServer := (), InnerSocketServer := (), InnerSocketClient := (),
           Etcd := () } : Config Unit Unit Unit Unit)
        (none : Option Unit) (none : Option Unit)).1.any RunEvent.isSocket = false) :=
  ⟨(Run_starts_exactly_enabled_transports (fun _ => none) (fun (_ : Unit) => ((), none))
      ({ EnableHttp := true, EnableSocket := false, OuterHttpServer := (),
         OuterSocketServer := (), InnerSocketServer := (), InnerSocketClient := (),
         Etcd := () } : Config Unit Unit Unit Unit) none none rfl rfl).1,
   (Run_starts_exactly_enabled_transports (fun _ => none) (fun (_ : Unit) => ((), none))
      ({ EnableHttp := true, EnableSocket := false, OuterHttpServer := (),
         OuterSocketServer := (), InnerSocketServer := (), InnerSocketClient := (),
         Etcd := () } : Config Unit Unit Unit Unit) none none rfl rfl).2.1⟩

/-- C5. `Run` returns to its caller exactly when `cfg.check()` fails or the
discovery-client construction fails; the value returned is then that step's error (the
check's if the check failed, else the construction's), it is not nil, and nothing has
been done yet: no business strategy installed, no inner client initialised, no listener
started.  In every other case `Run` parks for ever. -/
theorem Run_returns_iff_startup_check_fails
    (check : Config EtcdCfg CliCfg HttpCfg SockCfg → Option String)
    (easyNew : EtcdCfg → EtcdClient × Option String)
    (cfg : Config EtcdCfg CliCfg HttpCfg SockCfg) (biz : Option B) (protoFunc : Option F) :
    ((∃ e, (Run check easyNew cfg biz protoFunc).2 = RunEnd.returned e)
      ↔ (check cfg ≠ none ∨ (easyNew cfg.Etcd).2 ≠ none)) ∧
    (∀ e, (Run check easyNew cfg biz protoFunc).2 = RunEnd.returned e →
      e = (match check cfg with
            | some c => some c
            | none => (easyNew cfg.Etcd).2) ∧
      e ≠ none ∧
      (Run check easyNew cfg biz protoFunc).1 = []) ∧
    (¬ (check cfg ≠ none ∨ (easyNew cfg.Etcd).2 ≠ none) →
      (Run check easyNew cfg biz protoFunc).2 = RunEnd.parked) ∧
    (Run check easyNew cfg biz protoFunc).2 ≠ RunEnd.returned none := by
  cases hc : check cfg with
  | some c => simp [Run, hc]
  | none =>
    generalize hg : easyNew cfg.Etcd = r
    obtain ⟨cl, e⟩ := r
    cases e with
    | some e => simp [Run, hc, hg]
    | none => simp [Run, hc, hg]

/-- A run whose configuration check fails returns that error and has done nothing. -/
theorem Run_returns_iff_startup_check_fails_witness :
    Run (fun _ => some "bad config") (fun (_ : Unit) => ((), none))
        ({ EnableHttp := true, EnableSocket := true, OuterHttpServer := (),
           OuterSocketServer := (), InnerSocketServer := (), InnerSocketClient := (),
           Etcd := () } : Config Unit Unit Unit Unit)
        (none : Option Unit) (none : Option Unit)
      = (([] : List (RunEvent Unit Unit Unit Unit Unit Unit)),
          RunEnd.returned (some "bad config")) ∧
    (some "bad config" : Option String) ≠ none :=
  ⟨rfl,
   ((Run_returns_iff_startup_check_fails (fun _ => some "bad config")
      (fun (_ : Unit) => ((), none))
      ({ EnableHttp := true, EnableSocket := true, OuterHttpServer := (),
         OuterSocketServer := (), InnerSocketServer := (), InnerSocketClient := (),
         Etcd := () } : Config Unit Unit Unit Unit)
      (none : Option Unit) (none : Option Unit)).2.1 (some "bad config") rfl).2.1⟩

end

end Gateway

/-! ## Theorems: the websocket handshake -/

namespace Websocket

open Micro (Status)

section

variable {Sess W Frame : Type}

/-- The three ways `authChecker` can end. -/
theorem authChecker_cases
    (authAndLogon : String → Sess → W → Option Status × W)
    (sess : Sess) (fn : String → W → String × Option Status × W) (w : W) :
    (Status.OK (fn "" w).2.1 = false ∧
      (authChecker authAndLogon sess fn w).ret = none ∧
      (authChecker authAndLogon sess fn w).stat = (fn "" w).2.1 ∧
      (authChecker authAndLogon sess fn w).trace = [AuthEvent.recvOnce] ∧
      (authChecker authAndLogon sess fn w).world = (fn "" w).2.2) ∨
    (Status.OK (fn "" w).2.1 = true ∧
      Status.OK (authAndLogon (fn "" w).1 sess (fn "" w).2.2).1 = false ∧
      (authChecker authAndLogon sess fn w).ret = none ∧
      (authChecker authAndLogon sess fn w).stat = (authAndLogon (fn "" w).1 sess (fn "" w).2.2).1 ∧
      (authChecker authAndLogon sess fn w).trace =
        [AuthEvent.recvOnce, AuthEvent.infof (fn "" w).1,
          AuthEvent.authAndLogon (fn "" w).1 sess] ∧
      (authChecker authAndLogon sess fn w).world = (authAndLogon (fn "" w).1 sess (fn "" w).2.2).2) ∨
    (Status.OK (fn "" w).2.1 = true ∧
      Status.OK (authAndLogon (fn "" w).1 sess (fn "" w).2.2).1 = true ∧
      (authChecker authAndLogon sess fn w).ret = some "" ∧
      (authChecker authAndLogon sess fn w).stat = none ∧
      (authChecker authAndLogon sess fn w).trace =
        [AuthEvent.recvOnce, AuthEvent.infof (fn "" w).1,
          AuthEvent.authAndLogon (fn "" w).1 sess] ∧
      (authChecker authAndLogon sess fn w).world = (authAndLogon (fn "" w).1 sess (fn "" w).2.2).2) := by
  unfold authChecker
  by_cases h1 : Status.OK (fn "" w).2.1 = true
  · by_cases h2 : Status.OK (authAndLogon (fn "" w).1 sess (fn "" w).2.2).1 = true
    · right; right; simp [h1, h2]
    · right; left; simp [h1, h2]
  · left; simp [h1]

/-- C2. `authChecker` returns the result "" with a nil status exactly when the receive
returned an OK status and `authAndLogon` returned an OK status; otherwise it returns a
nil result together with the status of the first failing step, which is not OK. -/
theorem authChecker_outcome
    (authAndLogon : String → Sess → W → Option Status × W)
    (sess : Sess) (fn : String → W → String × Option Status × W) (w : W) :
    (((authChecker authAndLogon sess fn w).ret = some "" ∧
        (authChecker authAndLogon sess fn w).stat = none)
      ↔ (Status.OK (fn "" w).2.1 = true ∧
          Status.OK (authAndLogon (fn "" w).1 sess (fn "" w).2.2).1 = true)) ∧
    (Status.OK (fn "" w).2.1 = false →
      (authChecker authAndLogon sess fn w).ret = none ∧
      (authChecker authAndLogon sess fn w).stat = (fn "" w).2.1 ∧
      Status.OK (authChecker authAndLogon sess fn w).stat = false) ∧
    (Status.OK (fn "" w).2.1 = true →
      Status.OK (authAndLogon (fn "" w).1 sess (fn "" w).2.2).1 = false →
      (authChecker authAndLogon sess fn w).ret = none ∧
      (authChecker authAndLogon sess fn w).stat = (authAndLogon (fn "" w).1 sess (fn "" w).2.2).1 ∧
      Status.OK (authChecker authAndLogon sess fn w).stat = false) := by
  rcases authChecker_cases authAndLogon sess fn w with h | h | h
  · obtain ⟨h1, hr, hs, -, -⟩ := h
    simp [h1, hr, hs]
  · obtain ⟨h1, h2, hr, hs, -, -⟩ := h
    simp [h1, h2, hr, hs]
  · obtain ⟨h1, h2, hr, hs, -, -⟩ := h
    simp [h1, h2, hr, hs]

/-- A receive that fails with code 401 makes `authChecker` return that status and nil. -/
theorem authChecker_outcome_witness :
    Status.OK (some { code := 401, msg := "unauthorized", cause := "" }) = false ∧
    (authChecker (fun _ (_ : Unit) (u : Unit) => (none, u)) ()
      (fun a u => (a, some { code := 401, msg := "unauthorized", cause := "" }, u)) ()).ret
        = none ∧
    (authChecker (fun _ (_ : Unit) (u : Unit) => (none, u)) ()
      (fun a u => (a, some { code := 401, msg := "unauthorized", cause := "" }, u)) ()).stat
        = some { code := 401, msg := "unauthorized", cause := "" } :=
  ⟨by decide,
   ((authChecker_outcome (fun _ (_ : Unit) (u : Unit) => (none, u)) ()
      (fun a u => (a, some { code := 401, msg := "unauthorized", cause := "" }, u)) ()).2.1
      (by decide)).1,
   ((authChecker_outcome (fun _ (_ : Unit) (u : Unit) => (none, u)) ()
      (fun a u => (a, some { code := 401, msg := "unauthorized", cause := "" }, u)) ()).2.1
      (by decide)).2.1⟩

/-- C3. In one invocation of `authChecker` the receive function is called exactly once
and `authAndLogon` at most once; when the receive returned an OK status it is called
once, with the payload the receive left in `authInfo`, the same session and the world
the receive left; when the receive failed it is not called. -/
theorem authChecker_calls
    (authAndLogon : String → Sess → W → Option Status × W)
    (sess : Sess) (fn : String → W → String × Option Status × W) (w : W) :
    ((authChecker authAndLogon sess fn w).trace.filter AuthEvent.isRecv).length = 1 ∧
    ((authChecker authAndLogon sess fn w).trace.filter AuthEvent.isLogon).length ≤ 1 ∧
    (Status.OK (fn "" w).2.1 = true →
      (authChecker authAndLogon sess fn w).trace.filter AuthEvent.isLogon
        = [AuthEvent.authAndLogon (fn "" w).1 sess] ∧
      (authChecker authAndLogon sess fn w).world
        = (authAndLogon (fn "" w).1 sess (fn "" w).2.2).2) ∧
    (Status.OK (fn "" w).2.1 = false →
      (authChecker authAndLogon sess fn w).trace.filter AuthEvent.isLogon = [] ∧
      (authChecker authAndLogon sess fn w).world = (fn "" w).2.2) := by
  rcases authChecker_cases authAndLogon sess fn w with h | h | h
  · obtain ⟨h1, -, -, ht, hw⟩ := h
    simp [h1, ht, hw, AuthEvent.isRecv, AuthEvent.isLogon]
  · obtain ⟨h1, h2, -, -, ht, hw⟩ := h
    simp [h1, ht, hw, AuthEvent.isRecv, AuthEvent.isLogon]
  · obtain ⟨h1, h2, -, -, ht, hw⟩ := h
    simp [h1, ht, hw, AuthEvent.isRecv, AuthEvent.isLogon]

/-- A receive that yields "token-abc" with a nil status is followed by one registration
of "token-abc" for the same session. -/
theorem authChecker_calls_witness :
    Status.OK (none : Option Status) = true ∧
    (authChecker (fun _ (_ : Nat) (u : Unit) => (none, u)) 7
      (fun _ u => ("token-abc", none, u)) ()).trace.filter AuthEvent.isLogon
        = [AuthEvent.authAndLogon "token-abc" 7] :=
  ⟨rfl,
   ((authChecker_calls (fun _ (_ : Nat) (u : Unit) => (none, u)) 7
      (fun _ u => ("token-abc", none, u)) ()).2.2.1 rfl).1⟩

/-- A rejected session does nothing more. -/
theorem sessionRun_rejected
    (authAndLogon : String → Sess → W → Option Status × W)
    (recv : Frame → String → W → String × Option Status × W) (sess : Sess)
    (w : W) (frames : List Frame) :
    sessionRun authAndLogon recv sess (SessState.rejected, w) frames = [] := by
  induction frames with
  | nil => rfl
  | cons f fs ih => simp [sessionRun, sessionStep, ih]

/-- The first frame of a new session is the handshake: the run starts with the status
`authChecker` returned, and goes on only if that status is OK. -/
theorem sessionRun_new_cons
    (authAndLogon : String → Sess → W → Option Status × W)
    (recv : Frame → String → W → String × Option Status × W) (sess : Sess)
    (w : W) (f : Frame) (fs : List Frame) :
    (Status.OK (authChecker authAndLogon sess (recv f) w).stat = true ∧
      sessionRun authAndLogon recv sess (SessState.new, w) (f :: fs)
        = SessEvent.authReturned (authChecker authAndLogon sess (recv f) w).stat ::
            sessionRun authAndLogon recv sess
              (SessState.authenticated, (authChecker authAndLogon sess (recv f) w).world) fs) ∨
    (Status.OK (authChecker authAndLogon sess (recv f) w).stat = false ∧
      sessionRun authAndLogon recv sess (SessState.new, w) (f :: fs)
        = [SessEvent.authReturned (authChecker authAndLogon sess (recv f) w).stat,
            SessEvent.closed]) := by
  by_cases h : Status.OK (authChecker authAndLogon sess (recv f) w).stat = true
  · left
    refine ⟨h, ?_⟩
    simp [sessionRun, sessionStep, h]
  · right
    simp only [Bool.not_eq_true] at h
    refine ⟨h, ?_⟩
    simp [sessionRun, sessionStep, h, sessionRun_rejected]

/-- C4. `Serve` registers `authChecker` first, ahead of the connection-table plugin, the
proxy plugin and the pre-write-push plugin; and on every session, whatever frames
arrive, each dispatch of a request is preceded by `authChecker` returning an OK status
on that session. -/
theorem no_dispatch_before_auth_ok
    (authAndLogon : String → Sess → W → Option Status × W)
    (recv : Frame → String → W → String × Option Status × W) (sess : Sess)
    (w : W) (frames : List Frame) :
    (servePlugins.head? = some WsPlugin.authChecker ∧
      ∀ p ∈ [WsPlugin.webSocketConnTabPlugin, WsPlugin.proxy, WsPlugin.preWritePushPlugin],
        servePlugins.indexOf WsPlugin.authChecker < servePlugins.indexOf p ∧
        servePlugins.indexOf p < servePlugins.length) ∧
    ∀ (i : Nat) (f : Frame),
      (sessionRun authAndLogon recv sess (SessState.new, w) frames)[i]?
          = some (SessEvent.dispatched f) →
      ∃ (j : Nat) (stat : Option Status), j < i ∧
        (sessionRun authAndLogon recv sess (SessState.new, w) frames)[j]?
          = some (SessEvent.authReturned stat) ∧
        Status.OK stat = true := by
  refine ⟨⟨rfl, by decide⟩, ?_⟩
  intro i f hi
  cases frames with
  | nil => simp [sessionRun] at hi
  | cons f0 fs =>
    rcases sessionRun_new_cons authAndLogon recv sess w f0 fs with ⟨hok, hrun⟩ | ⟨hbad, hrun⟩
    · rw [hrun] at hi ⊢
      cases i with
      | zero => simp at hi
      | succ k => exact ⟨0, _, Nat.succ_pos k, by simp, hok⟩
    · rw [hrun] at hi
      cases i with
      | zero => simp at hi
      | succ k =>
        cases k with
        | zero => simp at hi
        | succ m => simp at hi

/-- A session whose handshake payload is accepted and which then sends one request:
the request is dispatched at position 1, after the OK status at position 0. -/
theorem no_dispatch_before_auth_ok_witness :
    (sessionRun (fun _ (_ : Unit) (u : Unit) => (none, u)) (fun (f : String) _ u => (f, none, u))
        () (SessState.new, ()) ["token-abc", "/orders/create"])[1]?
      = some (SessEvent.dispatched "/orders/create") ∧
    ∃ (j : Nat) (stat : Option Status), j < 1 ∧
      (sessionRun (fun _ (_ : Unit) (u : Unit) => (none, u)) (fun (f : String) _ u => (f, none, u))
          () (SessState.new, ()) ["token-abc", "/orders/create"])[j]?
        = some (SessEvent.authReturned stat) ∧
      Status.OK stat = true :=
  ⟨rfl,
   (no_dispatch_before_auth_ok (fun _ (_ : Unit) (u : Unit) => (none, u))
      (fun (f : String) _ u => (f, none, u)) () ()
      ["token-abc", "/orders/create"]).2 1 "/orders/create" rfl⟩

end

end Websocket
